import Mathlib

/-!
Verification of the host-authoritative game-room layer of the
WASMTrysAction repository.

The development shallowly embeds two source modules:

* `src/src/wasm/game-engine.js` — the engine adapter: a module-level
  registry `gameStates` plus pass-through calls into an optional WASM
  backend (`wasmInstance`), every call degrading to a neutral value when
  the backend or the relevant export is absent.
* `src/wasm/game-room.js` (the unnamed room extension source) — the
  per-room protocol state: host flag, tick loop and sync-timer flags,
  the FIFO action queue, the insertion-ordered `playerStates` map, and
  the handlers wired to the network channels.

Stateful JS is modelled as explicit state passing; every outward call
(network send, consumer callback, forwarding an action to the engine)
is recorded as an `Emit` event so that theorems can speak about what a
handler sends and in which order.  Timers are modelled by the two
boolean flags the source keeps (`gameLoop`/`syncTimer` being non-null)
together with the bodies of the interval callbacks as separate
functions (`gameLoopTick`, `syncTimerTick`).
-/

namespace WasmTrys

/-- Room/game configuration, `defaultGameConfig` of game-room.js with the
optional `mapSeed` added by `createGameRoom`. -/
structure GameConfig where
  tickRate : Nat := 60
  syncInterval : Nat := 100
  maxPlayers : Nat := 8
  autoStart : Bool := false
  requireHost : Bool := true
  interpolation : Bool := true
  prediction : Bool := true
  mapSeed : Option String := none
deriving Repr, DecidableEq

/-- `defaultGameConfig` from game-room.js (mapSeed unset). -/
def defaultGameConfig : GameConfig := {}

/-- A game action: the payload is opaque to the layer under study; the
drain loop may attach `latencyCompensation` before forwarding. -/
structure Action where
  payload : String
  latencyCompensation : Option Int := none
deriving Repr, DecidableEq

/-- Result of `process_action` as consumed by the room layer
(`result?.broadcast`, `result.state`); the state snapshot stays an
opaque blob. -/
structure ActionResult where
  broadcast : Bool
  state : String
deriving Repr, DecidableEq

/-- One entry of the adapter's module-level `gameStates` registry:
`{roomId, config, players, state: 'waiting', createdAt}`.  `players` is
a JS `Set`, modelled as an insertion-ordered duplicate-free list. -/
structure GameStateRec where
  roomId : String
  config : GameConfig
  players : List String
  state : String
  createdAt : Nat
deriving Repr, DecidableEq

/-- The exports of an instantiated WASM module, each optional exactly as
the adapter probes them (`wasmInstance?.exports.f`).  Backend calls are
modelled as pure functions of their arguments; `get_game_state` and
`update_game` return an optional `(tick, blob)` pair standing for the
`readObject` of the returned pointer; `destroy_game_instance` returns
void, so only its presence is kept. -/
structure WasmExports where
  create_game_instance : Option (String → GameConfig → Nat) := none
  process_action : Option (Nat → String → Action → Option ActionResult) := none
  get_game_state : Option (Nat → Option (Nat × String)) := none
  update_game : Option (Nat → Int → Option (Nat × String)) := none
  add_player : Option (Nat → String → String → Int) := none
  remove_player : Option (Nat → String → Int) := none
  destroy_game_instance : Bool := false

/-- `wasmInstance`: `none` models the engine never being initialized. -/
abbrev Engine : Type := Option WasmExports

/-- An initialized engine whose module exposes none of the game
functions: the degraded path of every adapter call. -/
def bareEngine : Engine := some {}

/-- The module-level `gameStates` map, keyed by game id. -/
abbrev GameStates : Type := List (Nat × GameStateRec)

/-- `gameStates.get(k)`. -/
def lookupGame : GameStates → Nat → Option GameStateRec
  | [], _ => none
  | kv :: rest, k => if kv.1 = k then some kv.2 else lookupGame rest k

/-- `gameStates.set(k, v)`: replaces in place when the key exists,
appends otherwise (JS `Map` keeps insertion order). -/
def setGame : GameStates → Nat → GameStateRec → GameStates
  | [], k, v => [(k, v)]
  | kv :: rest, k, v =>
    if kv.1 = k then (k, v) :: rest else kv :: setGame rest k v

/-- `gameStates.delete(k)`. -/
def deleteGame (m : GameStates) (k : Nat) : GameStates :=
  m.filter (fun kv => kv.1 ≠ k)

/-- `Set.add` on the players set. -/
def addToSet (s : List String) (x : String) : List String :=
  if s.contains x then s else s ++ [x]

/-- What the room layer sees from `getGameState`: either the adapter's
locally tracked record (degraded path) or the backend's snapshot. -/
inductive StateView where
  | localRec (r : GameStateRec)
  | wasmState (tick : Nat) (blob : String)
deriving Repr, DecidableEq

/-- `createGameInstance(roomId, config)` of game-engine.js: throws when
the engine was never initialized; otherwise takes the id from the
`create_game_instance` export when present and `Date.now()` (`now`)
otherwise, and registers the local record. -/
def createGameInstance (eng : Engine) (st : GameStates) (roomId : String)
    (config : GameConfig) (now : Nat) : Except String (Nat × GameStates) :=
  match eng with
  | none => .error "WASM game engine not initialized"
  | some ex =>
    let gameId :=
      match ex.create_game_instance with
      | some f => f roomId config
      | none => now
    .ok (gameId, setGame st gameId
      { roomId := roomId, config := config, players := [],
        state := "waiting", createdAt := now })

/-- `processGameAction(gameId, peerId, action)`: null unless the
`process_action` export exists, in which case its parsed result. -/
def processGameAction (eng : Engine) (gameId : Nat) (peerId : String)
    (action : Action) : Option ActionResult :=
  match eng with
  | none => none
  | some ex =>
    match ex.process_action with
    | none => none
    | some f => f gameId peerId action

/-- `getGameState(gameId)`: the local record when the `get_game_state`
export is missing (`gameStates.get(gameId) || null`), otherwise the
backend's snapshot. -/
def getGameState (eng : Engine) (st : GameStates) (gameId : Nat) :
    Option StateView :=
  match eng with
  | none => (lookupGame st gameId).map .localRec
  | some ex =>
    match ex.get_game_state with
    | none => (lookupGame st gameId).map .localRec
    | some f => (f gameId).map (fun p => .wasmState p.1 p.2)

/-- `updateGame(gameId, deltaTime)`: null without the export. -/
def updateGame (eng : Engine) (gameId : Nat) (deltaTime : Int) :
    Option StateView :=
  match eng with
  | none => none
  | some ex =>
    match ex.update_game with
    | none => none
    | some f => (f gameId deltaTime).map (fun p => .wasmState p.1 p.2)

/-- `addPlayer(gameId, playerId, playerData)`: false when the instance
is unregistered; otherwise the player is added to the local set and the
result is the `add_player` export's verdict (`=== 1`) when that export
exists, `true` otherwise. -/
def addPlayer (eng : Engine) (st : GameStates) (gameId : Nat)
    (playerId : String) (playerData : String) : Bool × GameStates :=
  match lookupGame st gameId with
  | none => (false, st)
  | some r =>
    let st' := setGame st gameId { r with players := addToSet r.players playerId }
    match eng with
    | none => (true, st')
    | some ex =>
      match ex.add_player with
      | none => (true, st')
      | some f => (f gameId playerId playerData == 1, st')

/-- `removePlayer(gameId, playerId)`: false when the instance is
unregistered; otherwise the player is removed from the local set and
the result is the `remove_player` export's verdict when it exists,
`true` otherwise. -/
def removePlayer (eng : Engine) (st : GameStates) (gameId : Nat)
    (playerId : String) : Bool × GameStates :=
  match lookupGame st gameId with
  | none => (false, st)
  | some r =>
    let st' := setGame st gameId
      { r with players := r.players.filter (fun p => p ≠ playerId) }
    match eng with
    | none => (true, st')
    | some ex =>
      match ex.remove_player with
      | none => (true, st')
      | some f => (f gameId playerId == 1, st')

/-- `destroyGameInstance(gameId)`: calls the void backend export when
present (no modelled effect) and deletes the registry entry; a total
function, so it never throws. -/
def destroyGameInstance (st : GameStates) (gameId : Nat) : GameStates :=
  deleteGame st gameId

/-! ## The game-room layer -/

/-- Payload of the `gameAction` channel: `{action, timestamp, playerId}`
(the receiver falls back to the transport peer id when `playerId` is
missing, hence the `Option`). -/
structure GameActionMsg where
  action : Action
  timestamp : Nat
  playerId : Option String
deriving Repr, DecidableEq

/-- Payload of the `stateSync` channel as built by the sync timer and
the join handlers: `{state, timestamp, tick, fullSync?}`. -/
structure SyncMsg where
  state : Option StateView
  timestamp : Nat
  tick : Nat
  fullSync : Bool := false
deriving Repr, DecidableEq

/-- One entry of the room's `actionQueue`. -/
structure QueuedAction where
  peerId : String
  action : Action
  timestamp : Nat
deriving Repr, DecidableEq

/-- Every outward-visible call a room operation makes, in call order:
network sends on the five channels, consumer callbacks, and each
forwarding of an action to the engine adapter (`engineApply`).
`sendStateSyncRaw` records the drain loop's `sendStateSync(result.state)`,
which ships the bare result state rather than a wrapped `SyncMsg`. -/
inductive Emit where
  | engineApply (peerId : String) (action : Action)
  | sendGameAction (msg : GameActionMsg)
  | sendStateSync (msg : SyncMsg)
  | sendStateSyncRaw (state : String)
  | sendPlayerLeave (peerId : String)
  | sendHostTransfer (newHostId : String)
  | onGameStart
  | onGameStop
  | onGameUpdate (st : Option StateView) (delta : Int)
  | onLocalAction (a : Action) (r : Option ActionResult)
  | onRemoteAction (a : Action) (playerId : String)
  | onStateSync (st : Option StateView) (latency : Int) (tick : Nat)
  | onHostChange (id : String)
  | onPlayerGameLeave (id : String)
deriving Repr, DecidableEq

/-- The closure state of one `createGameRoom` call: `isHost`, the two
timer handles (modelled by whether an interval is live), the clock of
the tick loop, the insertion-ordered `playerStates` map (peer id ↦
joinedAt) and the FIFO `actionQueue`. -/
structure RoomState where
  selfId : String
  gameId : Nat
  config : GameConfig
  isHost : Bool := false
  gameLoopRunning : Bool := false
  syncTimerRunning : Bool := false
  lastUpdateTime : Nat := 0
  playerStates : List (String × Nat) := []
  actionQueue : List QueuedAction := []
deriving Repr, DecidableEq

/-- `becomeHost()`: early-returns when already host; otherwise sets the
flag, creates the sync interval only when the game loop is live and no
sync interval exists, then sends the host announcement and fires the
host-change callback.  It never touches the game loop. -/
def becomeHost (s : RoomState) : RoomState × List Emit :=
  if s.isHost then (s, [])
  else
    let s1 := { s with isHost := true }
    let s2 :=
      if s1.gameLoopRunning && !s1.syncTimerRunning then
        { s1 with syncTimerRunning := true }
      else s1
    (s2, [.sendHostTransfer s.selfId, .onHostChange s.selfId])

/-- `startGame()`: early-returns when the game loop exists; otherwise
resets the loop clock, creates the tick interval, creates the sync
interval when host, and fires the game-start callback. -/
def startGame (s : RoomState) (now : Nat) : RoomState × List Emit :=
  if s.gameLoopRunning then (s, [])
  else
    let s1 := { s with lastUpdateTime := now, gameLoopRunning := true }
    let s2 := if s1.isHost then { s1 with syncTimerRunning := true } else s1
    (s2, [.onGameStart])

/-- `stopGame()`: clears both intervals and fires the game-stop
callback. -/
def stopGame (s : RoomState) : RoomState × List Emit :=
  ({ s with gameLoopRunning := false, syncTimerRunning := false }, [.onGameStop])

/-- The `while (actionQueue.length > 0)` body of the tick interval:
shifts each queued action in FIFO order, attaches
`latencyCompensation = now - timestamp` when prediction is on, forwards
it to `processGameAction`, and re-broadcasts `result.state` when the
local peer is host and the result asks for a broadcast. -/
def drainQueue (eng : Engine) (gameId : Nat) (prediction isHost : Bool)
    (now : Nat) : List QueuedAction → List Emit
  | [] => []
  | q :: rest =>
    let a :=
      if prediction then
        { q.action with latencyCompensation := some ((now : Int) - (q.timestamp : Int)) }
      else q.action
    let emits :=
      match processGameAction eng gameId q.peerId a with
      | some r => if isHost && r.broadcast then [.sendStateSyncRaw r.state] else []
      | none => []
    .engineApply q.peerId a :: emits ++ drainQueue eng gameId prediction isHost now rest

/-- The body of the `gameLoop` interval: computes `deltaTime`, drains
the queue, calls `updateGame`, and fires the update callback. -/
def gameLoopTick (eng : Engine) (s : RoomState) (now : Nat) :
    RoomState × List Emit :=
  let deltaTime := (now : Int) - (s.lastUpdateTime : Int)
  let emits := drainQueue eng s.gameId s.config.prediction s.isHost now s.actionQueue
  let st := updateGame eng s.gameId deltaTime
  ({ s with lastUpdateTime := now, actionQueue := [] },
    emits ++ [.onGameUpdate st deltaTime])

/-- The body of the `syncTimer` interval (identical in `startGame` and
`becomeHost`): reads the state, wraps it with the wall clock and
`state?.tick || 0`, and broadcasts it.  The body itself never checks
`isHost`. -/
def syncTimerTick (eng : Engine) (gs : GameStates) (s : RoomState)
    (now : Nat) : List Emit :=
  let st := getGameState eng gs s.gameId
  let tick := match st with
    | some (.wasmState t _) => t
    | _ => 0
  [.sendStateSync { state := st, timestamp := now, tick := tick }]

/-- `sendAction(action)`: optimistic local application and the
local-action callback when prediction is on (never a queue entry),
then the broadcast on the `gameAction` channel, then a local enqueue
exactly when the peer is not host. -/
def sendAction (eng : Engine) (s : RoomState) (action : Action) (now : Nat) :
    RoomState × List Emit :=
  let predEmits :=
    if s.config.prediction then
      [.engineApply s.selfId action,
       .onLocalAction action (processGameAction eng s.gameId s.selfId action)]
    else []
  let s' :=
    if !s.isHost then
      { s with actionQueue := s.actionQueue ++
          [{ peerId := s.selfId, action := action, timestamp := now }] }
    else s
  (s', predEmits ++
    [.sendGameAction { action := action, timestamp := now, playerId := some s.selfId }])

/-- The `receiveGameAction` handler: appends to the queue under
`playerId || peerId` and fires the remote-action callback. -/
def receiveGameAction (s : RoomState) (data : GameActionMsg) (peerId : String) :
    RoomState × List Emit :=
  let pid := data.playerId.getD peerId
  ({ s with actionQueue := s.actionQueue ++
      [{ peerId := pid, action := data.action, timestamp := data.timestamp }] },
    [.onRemoteAction data.action pid])

/-- The `receiveStateSync` handler: ignored entirely while `isHost`;
otherwise surfaces the state with `latency = Date.now() - timestamp`
when interpolation is on and latency 0 when it is off.  The sender's
peer id plays no part. -/
def receiveStateSync (s : RoomState) (msg : SyncMsg) (_peerId : String)
    (now : Nat) : List Emit :=
  if s.isHost then []
  else if s.config.interpolation then
    [.onStateSync msg.state ((now : Int) - (msg.timestamp : Int)) msg.tick]
  else
    [.onStateSync msg.state 0 msg.tick]

/-- The `receiveHostTransfer` handler: an announcement naming self runs
`becomeHost`; one naming another peer clears the host flag, clears the
sync interval when live, and fires the host-change callback. -/
def receiveHostTransfer (s : RoomState) (newHostId : String) :
    RoomState × List Emit :=
  if newHostId = s.selfId then becomeHost s
  else
    ({ s with isHost := false, syncTimerRunning := false },
      [.onHostChange newHostId])

/-- The overridden `room.onPeerLeave` handler: removes the departed
peer from the engine and from `playerStates`, sends the leave
notification, then either drops the host flag when the map became
empty (without touching the sync interval), or — as a follower with
`requireHost` and peers remaining — runs `becomeHost` when the first
remaining key is self. -/
def onPeerLeave (eng : Engine) (gs : GameStates) (s : RoomState)
    (peerId : String) : (RoomState × GameStates) × List Emit :=
  let gs' := (removePlayer eng gs s.gameId peerId).2
  let ps' := s.playerStates.filter (fun kv => kv.1 ≠ peerId)
  let s1 := { s with playerStates := ps' }
  if s1.isHost && ps'.isEmpty then
    (({ s1 with isHost := false }, gs'), [.sendPlayerLeave peerId])
  else if !s1.isHost && s1.config.requireHost && !ps'.isEmpty then
    let newHost := (ps'.head?).map (fun kv => kv.1)
    if newHost = some s1.selfId then
      let (s2, em2) := becomeHost s1
      ((s2, gs'), .sendPlayerLeave peerId :: em2)
    else ((s1, gs'), [.sendPlayerLeave peerId])
  else ((s1, gs'), [.sendPlayerLeave peerId])

/-! ## Registry lemmas -/

theorem lookupGame_setGame_self (m : GameStates) (k : Nat) (v : GameStateRec) :
    lookupGame (setGame m k v) k = some v := by
  induction m with
  | nil => simp [setGame, lookupGame]
  | cons kv rest ih =>
    by_cases h : kv.1 = k
    · simp [setGame, lookupGame, h]
    · simp [setGame, lookupGame, h, ih]

theorem lookupGame_deleteGame_self (m : GameStates) (k : Nat) :
    lookupGame (deleteGame m k) k = none := by
  induction m with
  | nil => simp [deleteGame, lookupGame]
  | cons kv rest ih =>
    by_cases h : kv.1 = k
    · simpa [deleteGame, h] using ih
    · simpa [deleteGame, lookupGame, h] using ih

theorem deleteGame_idempotent (m : GameStates) (k : Nat) :
    deleteGame (deleteGame m k) k = deleteGame m k := by
  induction m with
  | nil => rfl
  | cons kv rest ih =>
    by_cases h : kv.1 = k
    · simp [deleteGame, h]
    · simp [deleteGame, h]

/-! ## Concrete fixtures used by counterexamples and witnesses -/

/-- A registry holding one instance (id 1) that is already at the
default `maxPlayers = 8` capacity. -/
def fullInstance : GameStateRec :=
  { roomId := "R1", config := defaultGameConfig,
    players := ["q1", "q2", "q3", "q4", "q5", "q6", "q7", "q8"],
    state := "waiting", createdAt := 0 }

/-- A freshly created follower room, no timers running. -/
def r0 : RoomState := { selfId := "p1", gameId := 1, config := defaultGameConfig }

/-- A hosting room with live game loop and sync timer and exactly one
other peer recorded in `playerStates`. -/
def rHostOne : RoomState :=
  { selfId := "p1", gameId := 1, config := defaultGameConfig,
    isHost := true, gameLoopRunning := true, syncTimerRunning := true,
    playerStates := [("p2", 5)] }

/-! ## C1 — degraded mode of the engine adapter -/

/-- Counterexample to C1: with no simulation backend supplied (the
engine never initialized, `wasmInstance = null`), `createGameInstance`
does not return a handle — it throws — and since no instance can ever
be registered on that path, `addPlayer` returns false and `getGameState`
returns null, contradicting the claimed no-op/neutral-success degraded
mode. -/
theorem createGameInstance_noEngine_throws :
    createGameInstance none [] "R1" defaultGameConfig 0 =
      .error "WASM game engine not initialized" ∧
    (addPlayer none [] 0 "p1" "").1 = false ∧
    getGameState none [] 0 = none :=
  ⟨rfl, rfl, rfl⟩

/-- C1 (amended): the degraded mode exists one level lower than claimed
— it requires the engine to be initialized with a module that exposes
none of the game exports (`bareEngine`), not an engine that was never
initialized.  On that path `createGameInstance` returns the `Date.now()`
fallback handle without throwing, `addPlayer` returns true, and
`getGameState` returns the locally tracked record carrying the room id
and the current player set. -/
theorem bareEngine_degraded_mode (st : GameStates) (roomId : String)
    (config : GameConfig) (now : Nat) (pid pdata : String) :
    ∃ st₁ : GameStates,
      createGameInstance bareEngine st roomId config now = .ok (now, st₁) ∧
      (addPlayer bareEngine st₁ now pid pdata).1 = true ∧
      ∃ r : GameStateRec,
        getGameState bareEngine (addPlayer bareEngine st₁ now pid pdata).2 now =
          some (.localRec r) ∧
        r.roomId = roomId ∧ r.players.contains pid := by
  refine ⟨setGame st now ⟨roomId, config, [], "waiting", now⟩, rfl, ?_, ?_⟩
  · simp [addPlayer, bareEngine, lookupGame_setGame_self]
  · refine ⟨⟨roomId, config, addToSet [] pid, "waiting", now⟩, ?_, rfl,
      by simp [addToSet]⟩
    simp [addPlayer, bareEngine, lookupGame_setGame_self, getGameState]

/-! ## C8 — addPlayer failure conditions -/

/-- Counterexample to C8: an instance already holding the configured
`maxPlayers = 8` players accepts a ninth — `addPlayer` performs no
capacity check, so it does not return false when capacity would be
exceeded. -/
theorem addPlayer_ignores_capacity :
    fullInstance.players.length = fullInstance.config.maxPlayers ∧
    (addPlayer bareEngine [(1, fullInstance)] 1 "q9" "").1 = true := by
  exact ⟨rfl, rfl⟩

/-- C8 (amended): the adapter's `addPlayer` returns false exactly when
the instance is missing from the registry; it never consults
`maxPlayers`.  When the backend supplies an `add_player` export, the
backend's verdict is additionally required (so capacity enforcement is
a backend concern, not the adapter's). -/
theorem addPlayer_false_iff_missing (st : GameStates) (gid : Nat)
    (pid pdata : String) :
    (addPlayer none st gid pid pdata).1 = (lookupGame st gid).isSome ∧
    (addPlayer bareEngine st gid pid pdata).1 = (lookupGame st gid).isSome ∧
    ∀ f : Nat → String → String → Int,
      (addPlayer (some { add_player := some f }) st gid pid pdata).1 =
        ((lookupGame st gid).isSome && (f gid pid pdata == 1)) := by
  refine ⟨?_, ?_, ?_⟩
  · cases h : lookupGame st gid <;> simp [addPlayer, h]
  · cases h : lookupGame st gid <;> simp [addPlayer, bareEngine, h]
  · intro f
    cases h : lookupGame st gid <;> simp [addPlayer, h]

/-! ## C10 — destroyGameInstance -/

/-- C10: after `destroyGameInstance(gameId)` the registry no longer
contains the id: `addPlayer` and `removePlayer` for it return false
(with or without an initialized engine), degraded-mode `getGameState`
returns null, and destroying again is a no-op (the operation is a total
function, so destroying an unknown id never throws). -/
theorem destroyGameInstance_spec (st : GameStates) (gid : Nat)
    (pid pdata : String) :
    lookupGame (destroyGameInstance st gid) gid = none ∧
    (addPlayer bareEngine (destroyGameInstance st gid) gid pid pdata).1 = false ∧
    (addPlayer none (destroyGameInstance st gid) gid pid pdata).1 = false ∧
    (removePlayer bareEngine (destroyGameInstance st gid) gid pid).1 = false ∧
    getGameState bareEngine (destroyGameInstance st gid) gid = none ∧
    destroyGameInstance (destroyGameInstance st gid) gid =
      destroyGameInstance st gid := by
  have h := lookupGame_deleteGame_self st gid
  refine ⟨h, ?_, ?_, ?_, ?_, deleteGame_idempotent st gid⟩
  · simp [addPlayer, destroyGameInstance, h]
  · simp [addPlayer, destroyGameInstance, h]
  · simp [removePlayer, destroyGameInstance, h]
  · simp [getGameState, bareEngine, destroyGameInstance, h]

/-! ## C3 — effects of becomeHost on the Follower→Host transition -/

/-- Counterexample to C3: on a follower whose tick loop is not running,
`becomeHost` neither starts the tick loop nor the broadcast timer — it
only flips the flag and announces.  The claimed "starts the
authoritative simulation tick loop ... starts the periodic full-state
broadcast timer" does not happen. -/
theorem becomeHost_starts_no_timers :
    (becomeHost r0).1.gameLoopRunning = false ∧
    (becomeHost r0).1.syncTimerRunning = false ∧
    (becomeHost r0).2 = [.sendHostTransfer "p1", .onHostChange "p1"] :=
  ⟨rfl, rfl, rfl⟩

/-- C3 (amended): on the Follower→Host transition `becomeHost` sets the
host flag, starts the broadcast timer only when the tick loop is
already running (and no timer exists yet), never starts the tick loop
itself, and broadcasts the host announcement carrying the local peer id
followed by the host-change callback. -/
theorem becomeHost_follower_spec (s : RoomState) (h : s.isHost = false) :
    becomeHost s =
      ({ s with isHost := true, syncTimerRunning := s.syncTimerRunning || s.gameLoopRunning },
        [.sendHostTransfer s.selfId, .onHostChange s.selfId]) ∧
    (becomeHost s).1.gameLoopRunning = s.gameLoopRunning := by
  constructor
  · cases hg : s.gameLoopRunning <;> cases ht : s.syncTimerRunning <;>
      simp [becomeHost, h, hg, ht]
  · cases hg : s.gameLoopRunning <;> cases ht : s.syncTimerRunning <;>
      simp [becomeHost, h, hg, ht]

/-- Witness for `becomeHost_follower_spec` at the concrete follower
room `r0`. -/
theorem becomeHost_follower_spec_witness :
    becomeHost r0 =
      ({ r0 with isHost := true, syncTimerRunning := r0.syncTimerRunning || r0.gameLoopRunning },
        [.sendHostTransfer r0.selfId, .onHostChange r0.selfId]) ∧
    (becomeHost r0).1.gameLoopRunning = r0.gameLoopRunning :=
  becomeHost_follower_spec r0 rfl

/-! ## C7 — idempotence of becomeHost -/

/-- C7: `becomeHost` is idempotent — a second call on a peer that is
already host leaves the state untouched and performs no outward call at
all: no new timer is created and no second host announcement is sent. -/
theorem becomeHost_idempotent (s : RoomState) :
    becomeHost (becomeHost s).1 = ((becomeHost s).1, ([] : List Emit)) := by
  by_cases h : s.isHost
  · simp [becomeHost, h]
  · cases hg : s.gameLoopRunning <;> cases ht : s.syncTimerRunning <;>
      simp [becomeHost, h, hg, ht]

/-! ## C9 — startGame idempotence and stopGame reset -/

/-- C9: while the tick loop exists `startGame` returns immediately with
no state change, no new timers and no game-start callback; `stopGame`
clears both timers, and a `startGame` after `stopGame` starts fresh
(creates the loop and fires the game-start callback once). -/
theorem startGame_idempotent_stopGame_resets (s : RoomState)
    (now now' : Nat) (h : s.gameLoopRunning = true) :
    startGame s now = (s, []) ∧
    (stopGame s).1.gameLoopRunning = false ∧
    (stopGame s).1.syncTimerRunning = false ∧
    (startGame (stopGame s).1 now').1.gameLoopRunning = true ∧
    (startGame (stopGame s).1 now').2 = [.onGameStart] := by
  refine ⟨by simp [startGame, h], rfl, rfl, ?_, ?_⟩
  · by_cases hh : s.isHost <;> simp [startGame, stopGame, hh]
  · by_cases hh : s.isHost <;> simp [startGame, stopGame, hh]

/-- Witness for `startGame_idempotent_stopGame_resets` on the concrete
hosting room `rHostOne` whose loop is live. -/
theorem startGame_idempotent_stopGame_resets_witness :
    startGame rHostOne 7 = (rHostOne, []) ∧
    (stopGame rHostOne).1.gameLoopRunning = false ∧
    (stopGame rHostOne).1.syncTimerRunning = false ∧
    (startGame (stopGame rHostOne).1 9).1.gameLoopRunning = true ∧
    (startGame (stopGame rHostOne).1 9).2 = [.onGameStart] :=
  startGame_idempotent_stopGame_resets rHostOne 7 9 rfl

/-! ## C2 — demotion from Host and the broadcast timer -/

/-- Counterexample to C2: a host that observes itself become the sole
remaining member on peer leave loses the host flag but its periodic
broadcast timer is NOT stopped (only the host-transfer path clears it),
and the timer body broadcasts a sync message unconditionally — so sync
broadcasts keep being sent while the peer is a Follower. -/
theorem peerLeave_demotion_keeps_broadcasting :
    (onPeerLeave none [] rHostOne "p2").1.1.isHost = false ∧
    (onPeerLeave none [] rHostOne "p2").1.1.syncTimerRunning = true ∧
    syncTimerTick none [] (onPeerLeave none [] rHostOne "p2").1.1 42 =
      [.sendStateSync { state := none, timestamp := 42, tick := 0 }] :=
  ⟨rfl, rfl, rfl⟩

/-- C2 (amended): only the host-announcement path stops the broadcast
timer.  Receiving a host transfer naming another peer clears the host
flag, clears the sync timer and sends nothing further; but the
isolation demotion on peer leave (the local peer observing itself as
the sole remaining member) merely clears the host flag and leaves the
broadcast timer in whatever state it was, so a previously live timer
keeps broadcasting sync messages while the peer is a Follower. -/
theorem demotion_timer_behaviour (s : RoomState) (newHostId : String)
    (eng : Engine) (gs : GameStates) (p : String)
    (hne : newHostId ≠ s.selfId) (hhost : s.isHost = true)
    (hlast : s.playerStates.filter (fun kv => kv.1 ≠ p) = []) :
    ((receiveHostTransfer s newHostId).1.isHost = false ∧
     (receiveHostTransfer s newHostId).1.syncTimerRunning = false ∧
     (receiveHostTransfer s newHostId).2 = [.onHostChange newHostId]) ∧
    ((onPeerLeave eng gs s p).1.1.isHost = false ∧
     (onPeerLeave eng gs s p).1.1.syncTimerRunning = s.syncTimerRunning ∧
     (onPeerLeave eng gs s p).2 = [.sendPlayerLeave p]) := by
  refine ⟨⟨?_, ?_, ?_⟩, ?_⟩
  · simp [receiveHostTransfer, hne]
  · simp [receiveHostTransfer, hne]
  · simp [receiveHostTransfer, hne]
  · simp only [onPeerLeave]
    rw [hlast, hhost]
    simp

/-- Witness for `demotion_timer_behaviour` at the concrete hosting room
`rHostOne`, transfer naming peer "p9", departure of "p2". -/
theorem demotion_timer_behaviour_witness :
    ((receiveHostTransfer rHostOne "p9").1.isHost = false ∧
     (receiveHostTransfer rHostOne "p9").1.syncTimerRunning = false ∧
     (receiveHostTransfer rHostOne "p9").2 = [.onHostChange "p9"]) ∧
    ((onPeerLeave none [] rHostOne "p2").1.1.isHost = false ∧
     (onPeerLeave none [] rHostOne "p2").1.1.syncTimerRunning =
       rHostOne.syncTimerRunning ∧
     (onPeerLeave none [] rHostOne "p2").2 = [.sendPlayerLeave "p2"]) :=
  demotion_timer_behaviour rHostOne "p9" none [] "p2" (by decide) rfl rfl

/-! ## C4 — FIFO drain of the action queue -/

/-- The action as the drain loop forwards it: `latencyCompensation =
now - enqueuedTimestamp` is attached exactly when prediction is on. -/
def compensate (prediction : Bool) (now : Nat) (q : QueuedAction) : Action :=
  if prediction then
    { q.action with latencyCompensation := some ((now : Int) - (q.timestamp : Int)) }
  else q.action

/-- The subsequence of engine forwardings in an emission trace, in call
order: one `(peerId, action)` pair per `processGameAction` call. -/
def appliedCalls : List Emit → List (String × Action)
  | [] => []
  | .engineApply p a :: rest => (p, a) :: appliedCalls rest
  | _ :: rest => appliedCalls rest

theorem appliedCalls_append (l₁ l₂ : List Emit) :
    appliedCalls (l₁ ++ l₂) = appliedCalls l₁ ++ appliedCalls l₂ := by
  induction l₁ with
  | nil => rfl
  | cons e rest ih => cases e <;> simp [appliedCalls, ih]

theorem appliedCalls_drainQueue (eng : Engine) (gid : Nat)
    (pred host : Bool) (now : Nat) (qs : List QueuedAction) :
    appliedCalls (drainQueue eng gid pred host now qs) =
      qs.map (fun q => (q.peerId, compensate pred now q)) := by
  induction qs with
  | nil => rfl
  | cons q rest ih =>
    have hc : (if pred = true then
        { q.action with latencyCompensation := some ((now : Int) - (q.timestamp : Int)) }
      else q.action) = compensate pred now q := rfl
    cases hr : processGameAction eng gid q.peerId (compensate pred now q) with
    | none =>
      simp [drainQueue, hc, hr, appliedCalls, appliedCalls_append, ih]
    | some r =>
      cases host <;> cases hbr : r.broadcast <;>
        simp [drainQueue, hc, hr, hbr, appliedCalls, appliedCalls_append, ih]

/-- C4: a tick's drain empties the whole queue and forwards every
queued action to the engine adapter in strict FIFO (arrival) order —
the forwarded sequence is exactly the queue, in order, independent of
sender or timestamp — with `latencyCompensation = now - enqueuedTimestamp`
attached when prediction is enabled, one `processGameAction` call (and
hence one result) per action. -/
theorem gameLoopTick_drains_fifo (eng : Engine) (s : RoomState) (now : Nat) :
    (gameLoopTick eng s now).1.actionQueue = [] ∧
    appliedCalls (gameLoopTick eng s now).2 =
      s.actionQueue.map (fun q => (q.peerId, compensate s.config.prediction now q)) ∧
    (appliedCalls (gameLoopTick eng s now).2).length = s.actionQueue.length := by
  refine ⟨rfl, ?_, ?_⟩
  · simp [gameLoopTick, appliedCalls_append, appliedCalls_drainQueue, appliedCalls]
  · simp [gameLoopTick, appliedCalls_append, appliedCalls_drainQueue, appliedCalls]

/-! ## C5 — sendAction -/

/-- C5: `sendAction` first (when prediction is enabled) applies the
action against the local simulation as the acting peer and surfaces the
result synchronously through the local-action callback — without any
queue entry — then broadcasts the action with the wall-clock timestamp
and the local peer id; the action is appended to the local queue if and
only if the local peer is not the host. -/
theorem sendAction_spec (eng : Engine) (s : RoomState) (a : Action) (now : Nat) :
    (sendAction eng s a now).2 =
      (if s.config.prediction then
        [.engineApply s.selfId a,
         .onLocalAction a (processGameAction eng s.gameId s.selfId a)]
       else []) ++
      [.sendGameAction { action := a, timestamp := now, playerId := some s.selfId }] ∧
    (sendAction eng s a now).1.actionQueue =
      s.actionQueue ++
        (if s.isHost then []
         else [{ peerId := s.selfId, action := a, timestamp := now }]) ∧
    (sendAction eng s a now).1.isHost = s.isHost ∧
    (sendAction eng s a now).1.syncTimerRunning = s.syncTimerRunning := by
  by_cases hh : s.isHost <;> by_cases hp : s.config.prediction <;>
    simp [sendAction, hh, hp]

/-! ## C6 — receiveStateSync -/

/-- C6: the state-sync handler is filtered purely by the local role
flag (its result never depends on the sending peer id): a host ignores
the message entirely; a follower surfaces `(state, latency, tick)` with
`latency = now - message.timestamp` when interpolation is enabled and
latency 0 when it is disabled. -/
theorem receiveStateSync_spec (s : RoomState) (msg : SyncMsg)
    (pid pid' : String) (now : Nat) :
    receiveStateSync s msg pid now = receiveStateSync s msg pid' now ∧
    receiveStateSync s msg pid now =
      (if s.isHost then []
       else [.onStateSync msg.state
          (if s.config.interpolation then (now : Int) - (msg.timestamp : Int) else 0)
          msg.tick]) := by
  by_cases hh : s.isHost <;> by_cases hi : s.config.interpolation <;>
    simp [receiveStateSync, hh, hi]

end WasmTrys
